import Mathlib

/-!
Verification of the analysis core of `src/app.py` (temperature monitoring dashboard).

The core consists of `analyze_city` (sort one city's records by timestamp, compute a
centered 30-sample rolling mean of temperature, per-season sample mean / sample std
with `ddof = 1`, and an anomaly flag `(t < m - 2s) | (t > m + 2s)`), and the two
aggregators `run_sequential` / `run_parallel` that partition a dataset by city with
`df['city'].unique()`, apply `analyze_city` to each partition and concatenate.

Embedding conventions:
* A dataframe row is a `TemperatureRecord`; a dataframe is a `List` of rows in row
  order.  Timestamps are embedded as integers (only their ordering matters),
  temperatures as rationals.
* `NaN` results (undefined rolling mean, undefined std) are embedded as `none`;
  every pandas comparison against `NaN` is false, which the embedding reproduces
  explicitly.
* The sample standard deviation `std_season` is carried as its square
  `var_season` (the sample variance), which is rational; the code's comparisons
  `t < m - 2*std` / `t > m + 2*std` are reproduced exactly by the equivalent
  squared comparison `(t - m)^2 > 4*var` (both sides of the original comparison
  measure a nonnegative quantity against a nonnegative bound).  The theorems about
  the anomaly flag are stated over `ℝ` with the genuine `2 * Real.sqrt var` bound.
* `pd.concat` on an empty list of frames raises, so the aggregators return an
  `Option`, `none` being the error outcome.
* `sort_values('timestamp')` is embedded as a stable insertion sort.  (pandas'
  default `kind='quicksort'` does not promise a tie order; the stable model fixes
  one.  Every theorem below is independent of the order chosen among equal
  timestamps.)
* `rolling(window=30, center=True).mean()` follows pandas' fixed window indexer:
  with `center=True` the offset is `(30 - 1) / 2 = 14`, so the window at row `i`
  is rows `[i - 15, i + 14]` clipped to the frame, and with the default
  `min_periods = 30` the mean is defined only when the clipped window still has
  30 rows.
-/

/-- One row of the input dataframe: columns `city`, `timestamp`, `temperature`,
`season` of `src/app.py`'s CSV input. -/
structure TemperatureRecord where
  city : String
  timestamp : Int
  temperature : ℚ
  season : String
deriving DecidableEq, Repr

/-- One row of the dataframe returned by `analyze_city`: the original columns plus
`rolling_mean`, the merged seasonal statistics and `is_anomaly`.  `rolling_mean`
and the seasonal std are `none` where pandas produces `NaN`; the seasonal std is
represented by its square `var_season` (see the file comment). -/
structure AnnotatedRecord where
  city : String
  timestamp : Int
  temperature : ℚ
  season : String
  rolling_mean : Option ℚ
  mean_season : ℚ
  var_season : Option ℚ
  is_anomaly : Bool
deriving DecidableEq, Repr

/-- The original-columns part of an annotated row. -/
def AnnotatedRecord.toRecord (a : AnnotatedRecord) : TemperatureRecord :=
  ⟨a.city, a.timestamp, a.temperature, a.season⟩

/-- `city_df.sort_values('timestamp')`: reorder rows into ascending timestamp
order (stable tie order in the model; see the file comment). -/
def sort_values (l : List TemperatureRecord) : List TemperatureRecord :=
  l.insertionSort (fun a b => a.timestamp ≤ b.timestamp)

instance : IsTotal TemperatureRecord (fun a b => a.timestamp ≤ b.timestamp) :=
  ⟨fun a b => le_total a.timestamp b.timestamp⟩

instance : IsTrans TemperatureRecord (fun a b => a.timestamp ≤ b.timestamp) :=
  ⟨fun _ _ _ hab hbc => le_trans hab hbc⟩

/-- Arithmetic mean of a list of rationals (pandas `mean` over a group or window;
groups and full windows are never empty where this is used). -/
def listMean (xs : List ℚ) : ℚ := xs.sum / xs.length

/-- `series.rolling(window=30, center=True).mean()` evaluated at row `i` of a
series of length `N`:  pandas' fixed window indexer with `center=True` uses the
offset `(30 - 1) / 2 = 14`, i.e. the window `[i - 15, i + 14]` clipped to
`[0, N)`, and the default `min_periods = 30` makes the result `NaN` (here `none`)
unless the clipped window still holds 30 rows. -/
def rolling_mean30 (temps : List ℚ) (i : ℕ) : Option ℚ :=
  let start := (i + 15) - 30
  let stop := min (i + 15) temps.length
  if stop - start = 30 then some (listMean ((temps.drop start).take 30)) else none

/-- The temperatures of the rows of `l` whose `season` is `s`: the group selected
by `groupby('season')['temperature']`. -/
def seasonTemps (l : List TemperatureRecord) (s : String) : List ℚ :=
  (l.filter (fun r => r.season = s)).map (fun r => r.temperature)

/-- The `mean` aggregate of the season group of `s` (column `mean_season` after
the merge). -/
def seasonMean (l : List TemperatureRecord) (s : String) : ℚ :=
  listMean (seasonTemps l s)

/-- The `std` aggregate (ddof = 1) of the season group of `s`, represented by its
square, the sample variance `Σ (x - mean)² / (n - 1)`; `none` embeds the `NaN`
that pandas yields on groups with fewer than two members. -/
def seasonVar (l : List TemperatureRecord) (s : String) : Option ℚ :=
  let xs := seasonTemps l s
  if xs.length < 2 then none
  else some ((xs.map (fun x => (x - listMean xs) ^ 2)).sum / ((xs.length - 1 : ℕ) : ℚ))

/-- The anomaly flag `(t < m - 2s) | (t > m + 2s)` of `analyze_city`, where
`s = √v` is the seasonal std: false when the std is `NaN` (every pandas
comparison against `NaN` is false), and otherwise equivalent to
`|t - m| > 2s`, i.e. to the rational comparison `(t - m)² > 4v`. -/
def anomalyFlag (t m : ℚ) (v? : Option ℚ) : Bool :=
  match v? with
  | none => false
  | some v => decide ((t - m) ^ 2 > 4 * v)

/-- The annotated row built for the record `r` sitting at position `i` of the
sorted frame `sorted`: the rolling mean is positional, the seasonal statistics
are merged in by season (`merge(..., on='season', how='left')` matches every row,
because the statistics were computed from the same frame, and preserves row
order, because seasons are unique in `seasonal_stats`). -/
def annotateRow (sorted : List TemperatureRecord) (i : ℕ) (r : TemperatureRecord) :
    AnnotatedRecord :=
  ⟨r.city, r.timestamp, r.temperature, r.season,
    rolling_mean30 (sorted.map (fun x => x.temperature)) i,
    seasonMean sorted r.season,
    seasonVar sorted r.season,
    anomalyFlag r.temperature (seasonMean sorted r.season) (seasonVar sorted r.season)⟩

/-- `analyze_city` of `src/app.py`: sort by timestamp, add the centered rolling
mean, merge the per-season mean/std and add the anomaly flag.  The function is
total: the source performs no input validation and none of its steps can raise on
a well-typed frame. -/
def analyze_city (l : List TemperatureRecord) : List AnnotatedRecord :=
  let sorted := sort_values l
  sorted.enum.map (fun p => annotateRow sorted p.1 p.2)

/-- `df['city'].unique()`: the distinct city names in order of first appearance,
scanning the rows left to right. -/
def uniqueCities (l : List TemperatureRecord) : List String :=
  l.foldl (fun acc r => if r.city ∈ acc then acc else acc ++ [r.city]) []

/-- The rows of `df[df['city'] == c]`, in their original order. -/
def cityPartition (l : List TemperatureRecord) (c : String) : List TemperatureRecord :=
  l.filter (fun r => r.city = c)

/-- `run_sequential` of `src/app.py` (timing elided): analyze each city's
partition in `unique()` order and `pd.concat` the results; `pd.concat` raises on
an empty list, embedded as `none`. -/
def run_sequential (df : List TemperatureRecord) : Option (List AnnotatedRecord) :=
  let results := (uniqueCities df).map (fun c => analyze_city (cityPartition df c))
  if results.isEmpty then none else some results.flatten

/-- `run_parallel` of `src/app.py` (timing elided): the same city partitions,
mapped through `analyze_city` by `ProcessPoolExecutor.map`, which applies a pure
function to each group and returns the results in input order; then `pd.concat`
as in `run_sequential`. -/
def run_parallel (df : List TemperatureRecord) : Option (List AnnotatedRecord) :=
  let city_groups := (uniqueCities df).map (fun c => cityPartition df c)
  let results := city_groups.map analyze_city
  if results.isEmpty then none else some results.flatten

/-- The distinct elements of a list in order of first appearance (specification
vocabulary for "order of first appearance", used to characterise
`uniqueCities`). -/
def firstAppearances : List String → List String
  | [] => []
  | c :: cs => c :: (firstAppearances cs).filter (fun x => x ≠ c)

/-- A 30-row single-city frame, already sorted: city `"X"`, season `"winter"`,
timestamp and temperature both `i` at row `i`. -/
def ex30 : List TemperatureRecord :=
  (List.range 30).map (fun i => ⟨"X", i, i, "winter"⟩)

/-- A two-row frame spanning two cities. -/
def exTwoCities : List TemperatureRecord :=
  [⟨"A", 0, 0, "winter"⟩, ⟨"B", 1, 5, "summer"⟩]

/-- A two-row single-city frame with equal temperatures. -/
def exZ : List TemperatureRecord :=
  [⟨"X", 0, 0, "winter"⟩, ⟨"X", 1, 0, "winter"⟩]

/-- A three-row frame with interleaved cities. -/
def exMulti : List TemperatureRecord :=
  [⟨"B", 5, 1, "summer"⟩, ⟨"A", 0, 2, "winter"⟩, ⟨"B", 3, 4, "summer"⟩]

/-- The first output row of `analyze_city exZ`. -/
def a0 : AnnotatedRecord := ⟨"X", 0, 0, "winter", none, 0, some 0, false⟩

/-- The expected output of the aggregator on `exTwoCities`. -/
def outSeq : List AnnotatedRecord :=
  [⟨"A", 0, 0, "winter", none, 0, none, false⟩,
   ⟨"B", 1, 5, "summer", none, 5, none, false⟩]

/-- The expected output of the aggregator on `exMulti`. -/
def outMulti : List AnnotatedRecord :=
  [⟨"B", 3, 4, "summer", none, 5/2, some (9/2), false⟩,
   ⟨"B", 5, 1, "summer", none, 5/2, some (9/2), false⟩,
   ⟨"A", 0, 2, "winter", none, 2, none, false⟩]

/-! ## Structure lemmas about `analyze_city` -/

/-- Dropping the added columns from the output of `analyze_city` recovers exactly
the sorted input frame. -/
theorem analyze_city_toRecord (l : List TemperatureRecord) :
    (analyze_city l).map AnnotatedRecord.toRecord = sort_values l := by
  unfold analyze_city
  rw [List.map_map]
  exact List.enum_map_snd (sort_values l)

/-- `analyze_city` returns one row per input row. -/
theorem analyze_city_length (l : List TemperatureRecord) :
    (analyze_city l).length = l.length := by
  unfold analyze_city
  simp [List.enum_length, sort_values, List.length_insertionSort]

/-- The original-column parts of the output of `analyze_city` are a permutation
of the input rows. -/
theorem analyze_city_perm (l : List TemperatureRecord) :
    ((analyze_city l).map AnnotatedRecord.toRecord).Perm l := by
  rw [analyze_city_toRecord]
  exact List.perm_insertionSort _ l

/-- Projection form of `analyze_city_perm`. -/
theorem analyze_city_map_perm {β : Type} (f : TemperatureRecord → β)
    (l : List TemperatureRecord) :
    ((analyze_city l).map (fun a => f a.toRecord)).Perm (l.map f) := by
  have h := (analyze_city_perm l).map f
  rwa [List.map_map] at h

/-- The output of `analyze_city` is in ascending timestamp order. -/
theorem analyze_city_sorted (l : List TemperatureRecord) :
    ((analyze_city l).map (fun a => a.timestamp)).Sorted (fun x y => x ≤ y) := by
  have hmap : (analyze_city l).map (fun a => a.timestamp) =
      (sort_values l).map (fun r => r.timestamp) := by
    rw [← analyze_city_toRecord, List.map_map]
    rfl
  rw [hmap]
  have h := List.sorted_insertionSort (fun a b : TemperatureRecord => a.timestamp ≤ b.timestamp) l
  exact (List.pairwise_map).mpr h

/-- Row `i` of the output of `analyze_city` is row `i` of the sorted frame,
annotated at position `i`. -/
theorem analyze_city_getElem (l : List TemperatureRecord) (i : ℕ) :
    (analyze_city l)[i]? = ((sort_values l)[i]?).map
      (fun r => annotateRow (sort_values l) i r) := by
  unfold analyze_city
  simp only [List.getElem?_map, List.getElem?_enum, Option.map_map]
  rfl

/-- Every output row of `analyze_city` is an annotation of some row of the
sorted frame at its position. -/
theorem mem_analyze_city {l : List TemperatureRecord} {a : AnnotatedRecord}
    (ha : a ∈ analyze_city l) :
    ∃ i r, (sort_values l)[i]? = some r ∧ a = annotateRow (sort_values l) i r := by
  obtain ⟨i, hi⟩ := List.mem_iff_getElem?.mp ha
  rw [analyze_city_getElem] at hi
  cases hr : (sort_values l)[i]? with
  | none => rw [hr] at hi; exact absurd hi (by simp)
  | some r =>
    rw [hr] at hi
    exact ⟨i, r, hr, by simpa using hi.symm⟩

/-! ## The rolling mean window -/

/-- Closed form of the embedded pandas rolling mean: defined exactly on full
windows `[i - 15, i + 14]`, i.e. iff `15 ≤ i` and `i + 15 ≤ N`. -/
theorem rolling_mean30_eq (temps : List ℚ) (i : ℕ) :
    rolling_mean30 temps i =
      if 15 ≤ i ∧ i + 15 ≤ temps.length
      then some (listMean ((temps.drop (i - 15)).take 30)) else none := by
  unfold rolling_mean30
  have h1 : (i + 15) - 30 = i - 15 := by omega
  rw [h1]
  by_cases h : 15 ≤ i ∧ i + 15 ≤ temps.length
  · rw [if_pos (by omega), if_pos h]
  · rw [if_neg (by omega), if_neg h]

/-- C1 (corrected). For a single-city input already sorted ascending by
timestamp, the rolling_mean at sorted index `i` is defined exactly when a full
30-row window fits, which for pandas' `center=True` window of size 30 means
`15 ≤ i` and `i + 15 ≤ N` (window `[i - 15, i + 14]`: 15 rows before, 14 after);
there it equals the arithmetic mean of the temperatures at those indices, and
everywhere else (in particular whenever `N < 30`) it is null, with no
partial-window fallback.  (The claim's window `[i - 14, i + 15]` and bounds
`14 ≤ i ≤ N - 16` are off by one against the code.) -/
theorem C1_rolling_window (l : List TemperatureRecord) (c : String)
    (hcity : ∀ r ∈ l, r.city = c)
    (hsorted : (l.map (fun r => r.timestamp)).Sorted (fun x y => x ≤ y)) (i : ℕ) :
    ((analyze_city l)[i]?).map AnnotatedRecord.rolling_mean =
      if i < l.length then
        some (if 15 ≤ i ∧ i + 15 ≤ l.length
          then some (listMean (((l.map (fun r => r.temperature)).drop (i - 15)).take 30))
          else none)
      else none := by
  have hsl : sort_values l = l :=
    List.Sorted.insertionSort_eq ((List.pairwise_map).mp hsorted)
  rw [analyze_city_getElem, hsl]
  by_cases hi : i < l.length
  · have hr : l[i]? = some (l.get ⟨i, hi⟩) := by
      rw [List.getElem?_eq_some_iff]
      exact ⟨hi, rfl⟩
    rw [hr, if_pos hi]
    show some (rolling_mean30 (l.map (fun x => x.temperature)) i) = _
    rw [rolling_mean30_eq]
    simp [List.length_map]
  · rw [List.getElem?_eq_none (by omega), if_neg hi]
    rfl

/-- C1 counterexample. On a 30-row sorted single-city frame, the claim's bounds
`14 ≤ i ≤ N - 16` say index 14 is the unique non-null index; the code instead
leaves index 14 null and defines index 15 (its unique full window is
`[0, 29]`). -/
theorem C1_counterexample :
    ex30.length = 30 ∧
    ((analyze_city ex30)[14]?).map AnnotatedRecord.rolling_mean = some none ∧
    (14 ≤ 14 ∧ 14 ≤ ex30.length - 16) ∧
    ((analyze_city ex30)[15]?).map (fun a => a.rolling_mean.isSome) = some true ∧
    ¬ (15 ≤ ex30.length - 16) := by
  refine ⟨by decide, by decide, by decide, by decide, by decide⟩

/-- Witness for C1 at the concrete frame `ex30`, index 15. -/
theorem C1_witness :
    ((analyze_city ex30)[15]?).map AnnotatedRecord.rolling_mean =
      if 15 < ex30.length then
        some (if 15 ≤ 15 ∧ 15 + 15 ≤ ex30.length
          then some (listMean (((ex30.map (fun r => r.temperature)).drop (15 - 15)).take 30))
          else none)
      else none :=
  C1_rolling_window ex30 "X" (by decide) (by decide) 15

/-! ## The anomaly flag -/

/-- The embedded sample variance is nonnegative whenever it is defined. -/
theorem seasonVar_nonneg {l : List TemperatureRecord} {s : String} {v : ℚ}
    (h : seasonVar l s = some v) : 0 ≤ v := by
  simp only [seasonVar] at h
  split at h
  · exact absurd h (by simp)
  · rw [Option.some.injEq] at h
    subst h
    apply div_nonneg
    · apply List.sum_nonneg
      intro x hx
      obtain ⟨y, _, rfl⟩ := List.mem_map.mp hx
      positivity
    · exact Nat.cast_nonneg _

/-- The code's anomaly test `(t < m - 2s) | (t > m + 2s)`, embedded as the
squared comparison, is exactly the strict two-sided std test over the reals. -/
theorem anomalyFlag_iff_std (t m v : ℚ) (hv : 0 ≤ v) :
    anomalyFlag t m (some v) = true ↔
      |(t : ℝ) - (m : ℝ)| > 2 * Real.sqrt (v : ℝ) := by
  have hv' : (0 : ℝ) ≤ (v : ℝ) := by exact_mod_cast hv
  have h2 : (2 : ℝ) * Real.sqrt (v : ℝ) = Real.sqrt (4 * (v : ℝ)) := by
    rw [show (4 : ℝ) * (v : ℝ) = 2 ^ 2 * (v : ℝ) by norm_num,
      Real.sqrt_mul (by positivity), Real.sqrt_sq (by norm_num)]
  simp only [anomalyFlag, decide_eq_true_eq, gt_iff_lt]
  rw [h2, ← Real.sqrt_sq_eq_abs, Real.sqrt_lt_sqrt_iff (by positivity)]
  constructor
  · intro h
    exact_mod_cast h
  · intro h
    exact_mod_cast h

/-- C2 (confirmed). Every output record carries its own season's group mean and
group variance; its anomaly flag is true iff the seasonal std is defined and
`|temperature - mean| > 2 * std` holds (strict inequality, stated over the reals
with `std = √var`); the flag is false whenever the std is undefined, in
particular for every record whose city-season group has exactly one member. -/
theorem C2_anomaly (l : List TemperatureRecord) (a : AnnotatedRecord)
    (ha : a ∈ analyze_city l) :
    a.mean_season = seasonMean (sort_values l) a.season ∧
    a.var_season = seasonVar (sort_values l) a.season ∧
    (a.is_anomaly = true ↔ ∃ v : ℚ, a.var_season = some v ∧
        |(a.temperature : ℝ) - (a.mean_season : ℝ)| > 2 * Real.sqrt (v : ℝ)) ∧
    (a.var_season = none → a.is_anomaly = false) ∧
    ((seasonTemps (sort_values l) a.season).length = 1 → a.is_anomaly = false) := by
  obtain ⟨i, r, hr, rfl⟩ := mem_analyze_city ha
  simp only [annotateRow]
  refine ⟨trivial, trivial, ?_, ?_, ?_⟩
  · cases hv : seasonVar (sort_values l) r.season with
    | none => simp [anomalyFlag, hv]
    | some v =>
      rw [anomalyFlag_iff_std r.temperature (seasonMean (sort_values l) r.season) v
        (seasonVar_nonneg hv)]
      constructor
      · intro h
        exact ⟨v, rfl, h⟩
      · rintro ⟨w, hw, h⟩
        rw [Option.some.injEq] at hw
        subst hw
        exact h
  · intro hv
    rw [hv]
    rfl
  · intro hlen
    have hv : seasonVar (sort_values l) r.season = none := by
      simp [seasonVar, hlen]
    rw [hv]
    rfl

/-- Evaluation of `analyze_city` on the two-row frame `exZ`. -/
theorem analyze_exZ :
    analyze_city exZ =
      [⟨"X", 0, 0, "winter", none, 0, some 0, false⟩,
       ⟨"X", 1, 0, "winter", none, 0, some 0, false⟩] := by
  norm_num [analyze_city, sort_values, exZ, List.insertionSort, List.orderedInsert,
    List.enum, List.enumFrom, annotateRow, rolling_mean30, seasonMean, seasonVar,
    seasonTemps, listMean, anomalyFlag, List.filter]

/-- Witness for C2 at the concrete frame `exZ` and its first output row. -/
theorem C2_witness :
    a0.mean_season = seasonMean (sort_values exZ) a0.season ∧
    a0.var_season = seasonVar (sort_values exZ) a0.season ∧
    (a0.is_anomaly = true ↔ ∃ v : ℚ, a0.var_season = some v ∧
        |(a0.temperature : ℝ) - (a0.mean_season : ℝ)| > 2 * Real.sqrt (v : ℝ)) ∧
    (a0.var_season = none → a0.is_anomaly = false) ∧
    ((seasonTemps (sort_values exZ) a0.season).length = 1 → a0.is_anomaly = false) :=
  C2_anomaly exZ a0 (by rw [analyze_exZ]; exact List.mem_cons_self _ _)

/-- C3 counterexample. `analyze_city` contains no validation: fed a frame
spanning two cities it does not fail but returns a fully annotated frame
(seasonal statistics computed over the mixed records). -/
theorem C3_counterexample :
    analyze_city exTwoCities =
      [⟨"A", 0, 0, "winter", none, 0, none, false⟩,
       ⟨"B", 1, 5, "summer", none, 5, none, false⟩] := by
  norm_num [analyze_city, sort_values, exTwoCities, List.insertionSort, List.orderedInsert,
    List.enum, List.enumFrom, annotateRow, rolling_mean30, seasonMean, seasonVar,
    seasonTemps, listMean, anomalyFlag, List.filter_cons, List.filter_nil,
    (show ("summer" : String) ≠ "winter" by decide),
    (show ("winter" : String) ≠ "summer" by decide)]

/-- C3 (corrected). `analyze_city` raises no error at all: it performs no input
validation, so on every input — multi-city inputs included — it returns an
annotated frame with one row per input row; it is a pure deterministic function
of its input.  (The claimed `InvalidInputError` does not exist in the code.) -/
theorem C3_no_validation (l : List TemperatureRecord) :
    (analyze_city l).length = l.length :=
  analyze_city_length l

/-- C4 (confirmed). For a single-city input, the output of `analyze_city` has
the input's length, the multiset of (city, timestamp) pairs is preserved, the
set of (timestamp, temperature) pairs is preserved, and the output is sorted
ascending by timestamp. -/
theorem C4_shape (l : List TemperatureRecord) (c : String)
    (hcity : ∀ r ∈ l, r.city = c) :
    (analyze_city l).length = l.length ∧
    ((((analyze_city l).map (fun a => (a.city, a.timestamp))) : Multiset (String × Int)) =
      ((l.map (fun r => (r.city, r.timestamp))) : Multiset (String × Int))) ∧
    (∀ p : Int × ℚ,
      p ∈ (analyze_city l).map (fun a => (a.timestamp, a.temperature)) ↔
        p ∈ l.map (fun r => (r.timestamp, r.temperature))) ∧
    ((analyze_city l).map (fun a => a.timestamp)).Sorted (fun x y => x ≤ y) := by
  refine ⟨analyze_city_length l, ?_, ?_, analyze_city_sorted l⟩
  · exact Multiset.coe_eq_coe.mpr
      (analyze_city_map_perm (fun r => (r.city, r.timestamp)) l)
  · intro p
    exact (analyze_city_map_perm (fun r => (r.timestamp, r.temperature)) l).mem_iff

/-- Witness for C4 at the concrete frame `ex30`. -/
theorem C4_witness :
    (analyze_city ex30).length = ex30.length ∧
    ((((analyze_city ex30).map (fun a => (a.city, a.timestamp))) : Multiset (String × Int)) =
      ((ex30.map (fun r => (r.city, r.timestamp))) : Multiset (String × Int))) ∧
    (∀ p : Int × ℚ,
      p ∈ (analyze_city ex30).map (fun a => (a.timestamp, a.temperature)) ↔
        p ∈ ex30.map (fun r => (r.timestamp, r.temperature))) ∧
    ((analyze_city ex30).map (fun a => a.timestamp)).Sorted (fun x y => x ≤ y) :=
  C4_shape ex30 "X" (by decide)

/-- C5 (confirmed). The parallel aggregator is extensionally equal to the
sequential one — `ProcessPoolExecutor.map` applies the same pure function to the
same city partitions and returns the results in the same order — so in
particular the two produce identical multisets of annotated records. -/
theorem C5_parallel_eq_sequential (df : List TemperatureRecord) :
    run_parallel df = run_sequential df ∧
    Option.map (fun out => (out : Multiset AnnotatedRecord)) (run_parallel df) =
      Option.map (fun out => (out : Multiset AnnotatedRecord)) (run_sequential df) := by
  have h : run_parallel df = run_sequential df := by
    simp only [run_parallel, run_sequential, List.map_map]
    rfl
  exact ⟨h, by rw [h]⟩

/-- C7 (confirmed). `analyze_city` is a pure function of its input: the source
contains no nondeterministic construct (no randomness, a deterministic sort, and
per-row arithmetic only), so two calls on the same already-sorted input return
identical outputs.  In the embedding this is determinism by construction. -/
theorem C7_deterministic (l₁ l₂ : List TemperatureRecord)
    (hsorted : (l₁.map (fun r => r.timestamp)).Sorted (fun x y => x ≤ y))
    (h : l₁ = l₂) : analyze_city l₁ = analyze_city l₂ := by
  subst h
  rfl

/-- Witness for C7 at the concrete frame `ex30`. -/
theorem C7_witness : analyze_city ex30 = analyze_city ex30 :=
  C7_deterministic ex30 ex30 (by decide) rfl

/-! ## The city partition of the aggregators -/

/-- Membership in `firstAppearances` is membership in the original list. -/
theorem mem_firstAppearances {x : String} :
    ∀ {l : List String}, x ∈ firstAppearances l ↔ x ∈ l := by
  intro l
  induction l with
  | nil => simp [firstAppearances]
  | cons c cs ih =>
    simp only [firstAppearances, List.mem_cons, List.mem_filter]
    by_cases hx : x = c
    · simp [hx]
    · simp [hx, ih]

/-- `firstAppearances` never repeats an element. -/
theorem firstAppearances_nodup : ∀ l : List String, (firstAppearances l).Nodup := by
  intro l
  induction l with
  | nil => simp [firstAppearances]
  | cons c cs ih =>
    simp only [firstAppearances]
    refine List.nodup_cons.mpr ⟨?_, ih.filter _⟩
    simp [List.mem_filter]

/-- `firstAppearances` of a nonempty list is nonempty. -/
theorem firstAppearances_ne_nil {l : List String} (h : l ≠ []) :
    firstAppearances l ≠ [] := by
  cases l with
  | nil => exact absurd rfl h
  | cons c cs => simp [firstAppearances]

/-- Closed form of the `unique()` scan of `run_sequential`: from any accumulator
state, the fold appends the not-yet-seen cities in order of first appearance. -/
theorem foldl_unique_eq (l : List TemperatureRecord) :
    ∀ acc : List String,
      l.foldl (fun acc r => if r.city ∈ acc then acc else acc ++ [r.city]) acc =
        acc ++ (firstAppearances (l.map (fun r => r.city))).filter
          (fun c => decide (c ∉ acc)) := by
  induction l with
  | nil => intro acc; simp [firstAppearances]
  | cons r t ih =>
    intro acc
    simp only [List.foldl_cons, List.map_cons, firstAppearances, List.filter_cons]
    by_cases hc : r.city ∈ acc
    · rw [if_pos hc]
      have hdec : decide (r.city ∉ acc) = false := by simp [hc]
      rw [hdec]
      simp only [Bool.false_eq_true, if_false, List.filter_filter, ih acc]
      congr 1
      apply List.filter_congr
      intro a _
      by_cases ha : a ∈ acc
      · simp [ha]
      · have hne : a ≠ r.city := fun hEq => ha (hEq ▸ hc)
        simp [ha, hne]
    · rw [if_neg hc]
      have hdec : decide (r.city ∉ acc) = true := by simp [hc]
      rw [hdec]
      simp only [if_true, ih (acc ++ [r.city]), List.filter_filter]
      rw [← List.append_cons]
      congr 1
      congr 1
      apply List.filter_congr
      intro a _
      by_cases ha : a ∈ acc
      · simp [ha, List.mem_append]
      · by_cases har : a = r.city
        · simp [har]
        · simp [ha, har, List.mem_append]

/-- `df['city'].unique()` lists the distinct cities in order of first
appearance. -/
theorem uniqueCities_eq (l : List TemperatureRecord) :
    uniqueCities l = firstAppearances (l.map (fun r => r.city)) := by
  unfold uniqueCities
  rw [foldl_unique_eq l []]
  simp

/-- Every row's city appears in `unique()`. -/
theorem mem_uniqueCities {l : List TemperatureRecord} {r : TemperatureRecord}
    (hr : r ∈ l) : r.city ∈ uniqueCities l := by
  rw [uniqueCities_eq, mem_firstAppearances]
  exact List.mem_map_of_mem _ hr

/-- `unique()` has no duplicate cities. -/
theorem uniqueCities_nodup (l : List TemperatureRecord) : (uniqueCities l).Nodup := by
  rw [uniqueCities_eq]
  exact firstAppearances_nodup _

/-- `unique()` is empty exactly on the empty dataset. -/
theorem uniqueCities_eq_nil_iff (l : List TemperatureRecord) :
    uniqueCities l = [] ↔ l = [] := by
  rw [uniqueCities_eq]
  constructor
  · intro h
    by_contra hl
    exact firstAppearances_ne_nil (by simpa using hl) h
  · intro h
    subst h
    rfl

/-- For a different city, a partition is unaffected by removing city `c`'s
rows. -/
theorem cityPartition_filter_ne {df : List TemperatureRecord} {c c' : String}
    (hne : c' ≠ c) :
    cityPartition (df.filter (fun r => ! decide (r.city = c))) c' =
      cityPartition df c' := by
  unfold cityPartition
  rw [List.filter_filter]
  apply List.filter_congr
  intro r _
  by_cases h : r.city = c'
  · simp [h, hne]
  · simp [h]

/-- Splitting a dataset into the partitions of a duplicate-free covering list of
cities neither drops nor duplicates rows. -/
theorem flatten_partition_perm :
    ∀ (cs : List String) (df : List TemperatureRecord), cs.Nodup →
      (∀ r ∈ df, r.city ∈ cs) →
      ((cs.map (fun c => cityPartition df c)).flatten).Perm df := by
  intro cs
  induction cs with
  | nil =>
    intro df _ hcov
    cases df with
    | nil => simp
    | cons r t => exact absurd (hcov r (List.mem_cons_self r t)) (List.not_mem_nil _)
  | cons c cs ih =>
    intro df hnd hcov
    simp only [List.map_cons, List.flatten_cons]
    have hmap : cs.map (fun d => cityPartition df d) =
        cs.map (fun d => cityPartition (df.filter (fun r => ! decide (r.city = c))) d) := by
      apply List.map_congr_left
      intro d hd
      have hne : d ≠ c := fun hEq => (List.nodup_cons.mp hnd).1 (hEq ▸ hd)
      exact (cityPartition_filter_ne hne).symm
    rw [hmap]
    have hcov' : ∀ r ∈ df.filter (fun r => ! decide (r.city = c)), r.city ∈ cs := by
      intro r hr
      obtain ⟨hrdf, hpr⟩ := List.mem_filter.mp hr
      simp only [Bool.not_eq_true', decide_eq_false_iff_not] at hpr
      rcases List.mem_cons.mp (hcov r hrdf) with h | h
      · exact absurd h hpr
      · exact h
    have hperm := ih (df.filter (fun r => ! decide (r.city = c)))
      (List.nodup_cons.mp hnd).2 hcov'
    refine List.Perm.trans (List.Perm.append_left _ hperm) ?_
    simpa [cityPartition] using
      List.filter_append_perm (fun r => decide (r.city = c)) df

/-- Concatenating pointwise-permuted blocks gives permuted concatenations. -/
theorem flatten_map_perm {α β : Type} (g f : α → List β) :
    ∀ cs : List α, (∀ c ∈ cs, (g c).Perm (f c)) →
      ((cs.map g).flatten).Perm ((cs.map f).flatten) := by
  intro cs
  induction cs with
  | nil => intro _; simp
  | cons c cs ih =>
    intro h
    simp only [List.map_cons, List.flatten_cons]
    exact (h c (List.mem_cons_self c cs)).append
      (ih (fun d hd => h d (List.mem_cons_of_mem c hd)))

/-- `run_sequential` errors exactly on the empty dataset (the `pd.concat` of an
empty list of frames). -/
theorem run_sequential_eq_none_iff (df : List TemperatureRecord) :
    run_sequential df = none ↔ df = [] := by
  unfold run_sequential
  by_cases h : df = []
  · subst h
    simp [uniqueCities]
  · have hu : uniqueCities df ≠ [] := fun hEq => h ((uniqueCities_eq_nil_iff df).mp hEq)
    simp [List.isEmpty_iff, h, hu]

/-- On a nonempty dataset, `run_sequential` returns the concatenation of the
per-city analyses in `unique()` order. -/
theorem run_sequential_eq_some (df : List TemperatureRecord) (hdf : df ≠ []) :
    run_sequential df =
      some ((uniqueCities df).map (fun c => analyze_city (cityPartition df c))).flatten := by
  unfold run_sequential
  rw [if_neg]
  simp only [List.isEmpty_iff, List.map_eq_nil_iff]
  exact fun hu => hdf ((uniqueCities_eq_nil_iff df).mp hu)

/-- C6 (confirmed). The aggregator fails exactly on the empty dataset, and on
every successful run the output rows are, as a multiset, exactly the input rows
(annotated): nothing is dropped, duplicated, or partially returned.  A per-city
failure propagating is vacuous here because `analyze_city` is total; the
embedding does not distinguish Python exception classes, so "fails" is a single
error outcome. -/
theorem C6_aggregate_whole (df : List TemperatureRecord) :
    (run_sequential df = none ↔ df = []) ∧
    (∀ out, run_sequential df = some out →
      ((out.map AnnotatedRecord.toRecord : Multiset TemperatureRecord) =
        (df : Multiset TemperatureRecord))) := by
  refine ⟨run_sequential_eq_none_iff df, ?_⟩
  intro out hout
  have hdf : df ≠ [] := by
    intro h
    rw [(run_sequential_eq_none_iff df).mpr h] at hout
    exact Option.noConfusion hout
  rw [run_sequential_eq_some df hdf, Option.some.injEq] at hout
  subst hout
  apply Multiset.coe_eq_coe.mpr
  rw [List.map_flatten, List.map_map]
  have h1 : ((uniqueCities df).map
        (List.map AnnotatedRecord.toRecord ∘ fun c => analyze_city (cityPartition df c))) =
      (uniqueCities df).map (fun c => sort_values (cityPartition df c)) := by
    apply List.map_congr_left
    intro c _
    exact analyze_city_toRecord (cityPartition df c)
  rw [h1]
  have h2 := flatten_map_perm (fun c => sort_values (cityPartition df c))
    (fun c => cityPartition df c) (uniqueCities df)
    (fun c _ => List.perm_insertionSort _ _)
  exact h2.trans (flatten_partition_perm (uniqueCities df) df (uniqueCities_nodup df)
    (fun r hr => mem_uniqueCities hr))

/-- Evaluation of `analyze_city` on the one-row frame of city `"A"`. -/
theorem analyze_city_rowA : analyze_city [⟨"A", 0, 0, "winter"⟩] =
    [⟨"A", 0, 0, "winter", none, 0, none, false⟩] := by
  norm_num [analyze_city, sort_values, List.insertionSort, List.orderedInsert, List.enum,
    List.enumFrom, annotateRow, rolling_mean30, seasonMean, seasonVar, seasonTemps, listMean,
    anomalyFlag, List.filter_cons, List.filter_nil]

/-- Evaluation of `analyze_city` on the one-row frame of city `"B"`. -/
theorem analyze_city_rowB : analyze_city [⟨"B", 1, 5, "summer"⟩] =
    [⟨"B", 1, 5, "summer", none, 5, none, false⟩] := by
  norm_num [analyze_city, sort_values, List.insertionSort, List.orderedInsert, List.enum,
    List.enumFrom, annotateRow, rolling_mean30, seasonMean, seasonVar, seasonTemps, listMean,
    anomalyFlag, List.filter_cons, List.filter_nil]

/-- Evaluation of the aggregator on the two-city frame `exTwoCities`. -/
theorem run_sequential_exTwoCities : run_sequential exTwoCities = some outSeq := by
  have hu : uniqueCities exTwoCities = ["A", "B"] := by decide
  have hpA : cityPartition exTwoCities "A" = [⟨"A", 0, 0, "winter"⟩] := by decide
  have hpB : cityPartition exTwoCities "B" = [⟨"B", 1, 5, "summer"⟩] := by decide
  refine Eq.trans (run_sequential_eq_some exTwoCities (by decide)) ?_
  rw [hu, List.map_cons, List.map_cons, List.map_nil, hpA, hpB,
    analyze_city_rowA, analyze_city_rowB]
  rfl

/-- Witness for C6 at the concrete frame `exTwoCities`. -/
theorem C6_witness :
    ((outSeq.map AnnotatedRecord.toRecord : Multiset TemperatureRecord) =
      (exTwoCities : Multiset TemperatureRecord)) :=
  (C6_aggregate_whole exTwoCities).2 outSeq run_sequential_exTwoCities

/-- Every row of `analyze_city` applied to a city partition carries that city. -/
theorem analyze_city_partition_city {df : List TemperatureRecord} {c : String}
    {a : AnnotatedRecord} (ha : a ∈ analyze_city (cityPartition df c)) :
    a.city = c := by
  have h1 : a.toRecord ∈ (analyze_city (cityPartition df c)).map AnnotatedRecord.toRecord :=
    List.mem_map_of_mem _ ha
  rw [analyze_city_toRecord] at h1
  have h2 : a.toRecord ∈ cityPartition df c := by
    unfold sort_values at h1
    exact (List.mem_insertionSort _).mp h1
  have h3 := List.mem_filter.mp h2
  simpa [AnnotatedRecord.toRecord] using h3.2

/-- C10 (confirmed). The sequential aggregator's output is the concatenation of
one contiguous block per city, the cities appearing in order of first appearance
in the input; each block consists exactly of rows of its city, sorted ascending
by timestamp. -/
theorem C10_output_layout (df : List TemperatureRecord) (out : List AnnotatedRecord)
    (h : run_sequential df = some out) :
    out = ((firstAppearances (df.map (fun r => r.city))).map
        (fun c => analyze_city (cityPartition df c))).flatten ∧
    (firstAppearances (df.map (fun r => r.city))).Nodup ∧
    (∀ c ∈ firstAppearances (df.map (fun r => r.city)),
      ∀ a ∈ analyze_city (cityPartition df c), a.city = c) ∧
    (∀ c ∈ firstAppearances (df.map (fun r => r.city)),
      ((analyze_city (cityPartition df c)).map (fun a => a.timestamp)).Sorted
        (fun x y => x ≤ y)) := by
  have hdf : df ≠ [] := by
    intro hEq
    rw [(run_sequential_eq_none_iff df).mpr hEq] at h
    exact Option.noConfusion h
  rw [run_sequential_eq_some df hdf, Option.some.injEq] at h
  refine ⟨?_, firstAppearances_nodup _, ?_, ?_⟩
  · rw [← h, uniqueCities_eq]
  · intro c _ a ha
    exact analyze_city_partition_city ha
  · intro c _
    exact analyze_city_sorted _

/-- Evaluation of `analyze_city` on the two-row city-`"B"` partition of
`exMulti` (the rows arrive in reversed timestamp order and get sorted). -/
theorem analyze_city_blockB : analyze_city [⟨"B", 5, 1, "summer"⟩, ⟨"B", 3, 4, "summer"⟩] =
    [⟨"B", 3, 4, "summer", none, 5/2, some (9/2), false⟩,
     ⟨"B", 5, 1, "summer", none, 5/2, some (9/2), false⟩] := by
  norm_num [analyze_city, sort_values, List.insertionSort, List.orderedInsert, List.enum,
    List.enumFrom, annotateRow, rolling_mean30, seasonMean, seasonVar, seasonTemps, listMean,
    anomalyFlag, List.filter_cons, List.filter_nil]

/-- Evaluation of `analyze_city` on the one-row city-`"A"` partition of
`exMulti`. -/
theorem analyze_city_rowA2 : analyze_city [⟨"A", 0, 2, "winter"⟩] =
    [⟨"A", 0, 2, "winter", none, 2, none, false⟩] := by
  norm_num [analyze_city, sort_values, List.insertionSort, List.orderedInsert, List.enum,
    List.enumFrom, annotateRow, rolling_mean30, seasonMean, seasonVar, seasonTemps, listMean,
    anomalyFlag, List.filter_cons, List.filter_nil]

/-- Evaluation of the aggregator on the interleaved frame `exMulti`. -/
theorem run_sequential_exMulti : run_sequential exMulti = some outMulti := by
  have hu : uniqueCities exMulti = ["B", "A"] := by decide
  have hpB : cityPartition exMulti "B" = [⟨"B", 5, 1, "summer"⟩, ⟨"B", 3, 4, "summer"⟩] := by
    decide
  have hpA : cityPartition exMulti "A" = [⟨"A", 0, 2, "winter"⟩] := by decide
  refine Eq.trans (run_sequential_eq_some exMulti (by decide)) ?_
  rw [hu, List.map_cons, List.map_cons, List.map_nil, hpB, hpA,
    analyze_city_blockB, analyze_city_rowA2]
  rfl

/-- Witness for C10 at the concrete frame `exMulti`. -/
theorem C10_witness :
    outMulti = ((firstAppearances (exMulti.map (fun r => r.city))).map
        (fun c => analyze_city (cityPartition exMulti c))).flatten ∧
    (firstAppearances (exMulti.map (fun r => r.city))).Nodup ∧
    (∀ c ∈ firstAppearances (exMulti.map (fun r => r.city)),
      ∀ a ∈ analyze_city (cityPartition exMulti c), a.city = c) ∧
    (∀ c ∈ firstAppearances (exMulti.map (fun r => r.city)),
      ((analyze_city (cityPartition exMulti c)).map (fun a => a.timestamp)).Sorted
        (fun x y => x ≤ y)) :=
  C10_output_layout exMulti outMulti run_sequential_exMulti
